import Mathlib

/-!
Shallow embedding of the core of `neo4j/v1/session.py` (a Bolt graph-database
client driver), together with theorems settling the specification claims about
it.  Python machine state is made explicit: the outgoing frame queue of a
`Connection` is a list of frames, exceptions are values of `PyError`, and
fallible operations return the error (if any) alongside the state as it stands
when the exception propagates.
-/

namespace Neo4j

/-- Python values, restricted to the shapes the embedded code inspects:
`bytes` (carrying the string its UTF-8 payload decodes to), `str`, `int`,
`bool`, and `none`. -/
inductive PyVal where
  | bytes (s : String)
  | str (s : String)
  | int (i : Int)
  | bool (b : Bool)
  | none
deriving DecidableEq, Repr

/-- Python exception values raised by the embedded code.  `session.py` imports
`ProtocolError`, `TransactionError`, `CypherError` and `ResultError` from
`neo4j.v1.exceptions` and additionally raises built-in `AssertionError` (via
`assert`), `RuntimeError`, `ValueError`, `NotImplementedError`, `KeyError`,
`TypeError` and `IndexError`.  The import list of `session.py` shows the
exceptions module defines no `ConfigurationError`; the constructor below
stands for that absent class so that claims naming it can be stated, and no
embedded operation ever constructs it. -/
inductive PyError where
  | assertionError
  | transactionError (msg : String)
  | protocolError (msg : String)
  | cypherError (metadata : List (String × PyVal))
  | resultError (msg : String)
  | runtimeError (msg : String)
  | valueError (msg : String)
  | notImplementedError (msg : String)
  | keyError (key : String)
  | typeError
  | indexError
  | configurationError (msg : String)
deriving DecidableEq, Repr

/-- `True` exactly for `TransactionError` values. -/
def PyError.isTransactionError : PyError → Bool
  | .transactionError _ => true
  | _ => false

/-- `True` exactly for `ConfigurationError` values. -/
def PyError.isConfigurationError : PyError → Bool
  | .configurationError _ => true
  | _ => false

/-- The two frame op codes the core emits (`from .bolt import RUN, PULL_ALL`):
each statement execution appends `RUN(statement, parameters)` then
`PULL_ALL`. -/
inductive Frame where
  | RUN (statement : String) (parameters : List (String × PyVal))
  | PULL_ALL
deriving DecidableEq, Repr

/-- Modelled from the spec: `Connection` lives in `neo4j/v1/bolt.py`, which is
not under `src/`.  Per the spec, `append(op_code, args, response)` serialises
one frame into the request buffer and `send()` flushes it; the observation the
claims need is the ordered list of frames appended, kept here as `outgoing`. -/
structure Connection where
  outgoing : List Frame
deriving DecidableEq, Repr

/-- The frame-queue effect of the module-level helper
`run(connection, statement, parameters)` (session.py lines 566-598): it
appends `RUN(statement, parameters)` with a response, then `PULL_ALL` with a
response, then sends.  Statement and parameters arrive here already
normalised; the normalisation itself is embedded separately as
`runNormalizeParams`. -/
def runFrames (connection : Connection) (statement : String)
    (parameters : List (String × PyVal)) : Connection :=
  ⟨connection.outgoing ++ [Frame.RUN statement parameters, Frame.PULL_ALL]⟩

/-- `Transaction` state (session.py lines 408-475): the class attributes
`success = False` and `closed = False` are the initial values of per-instance
state.  The connection and the `on_close` callback are passed explicitly to
each operation. -/
structure Transaction where
  success : Bool
  closed : Bool
deriving DecidableEq, Repr

/-- `Transaction.__init__` (lines 429-432): record the connection, then
synchronously `run(self.connection, "BEGIN")`.  `success` and `closed` start
`False` (class attributes, lines 423 and 427). -/
def Transaction.make (connection : Connection) : Transaction × Connection :=
  (⟨false, false⟩, runFrames connection "BEGIN" [])

/-- `Transaction.run` (lines 442-450): `assert not self.closed`, then forward
to `run(self.connection, statement, parameters)`.  A failing `assert` raises
`AssertionError` and leaves the connection untouched, so the connection is
returned unchanged alongside the error. -/
def Transaction.run (tx : Transaction) (connection : Connection)
    (statement : String) (parameters : List (String × PyVal)) :
    Option PyError × Connection :=
  if tx.closed then (some .assertionError, connection)
  else (none, runFrames connection statement parameters)

/-- `Transaction.close` (lines 466-475): `assert not self.closed`; then run
`COMMIT` if `success` else `ROLLBACK`; set `closed = True`; invoke `on_close`
(whose session-side effect, clearing `session.transaction`, is applied by the
session operations).  A failing `assert` leaves transaction and connection as
they were. -/
def Transaction.close (tx : Transaction) (connection : Connection) :
    Option PyError × Transaction × Connection :=
  if tx.closed then (some .assertionError, tx, connection)
  else
    let connection :=
      if tx.success then runFrames connection "COMMIT" []
      else runFrames connection "ROLLBACK" []
    (none, { tx with closed := true }, connection)

/-- `Transaction.commit` (lines 452-457): set `success = True` and close. -/
def Transaction.commit (tx : Transaction) (connection : Connection) :
    Option PyError × Transaction × Connection :=
  Transaction.close { tx with success := true } connection

/-- `Transaction.rollback` (lines 459-464): set `success = False` and
close. -/
def Transaction.rollback (tx : Transaction) (connection : Connection) :
    Option PyError × Transaction × Connection :=
  Transaction.close { tx with success := false } connection

/-- `Transaction.__exit__` (lines 437-440): on an unhandled exception
(`exc_value` truthy) force `success = False`; then close. -/
def Transaction.exit (tx : Transaction) (connection : Connection)
    (excValue : Option String) : Option PyError × Transaction × Connection :=
  let tx := if excValue.isSome then { tx with success := false } else tx
  Transaction.close tx connection

/-- `Session` state (lines 351-405): the borrowed connection is passed
explicitly; `transaction` holds the at-most-one open `Transaction`. -/
structure Session where
  transaction : Option Transaction
deriving DecidableEq, Repr

/-- `Session.run` (lines 370-380): `if self.transaction:` raise
`TransactionError("Explicit transaction already open")`; else forward to
`run(self.connection, statement, parameters)`.  On the error path nothing is
appended to the connection. -/
def Session.run (s : Session) (connection : Connection) (statement : String)
    (parameters : List (String × PyVal)) : Option PyError × Connection :=
  if s.transaction.isSome then
    (some (.transactionError "Explicit transaction already open"), connection)
  else
    (none, runFrames connection statement parameters)

/-- `Session.begin_transaction` (lines 393-405): fail if a transaction is
already open; otherwise construct a `Transaction` (which runs `BEGIN`) and
store it. -/
def Session.beginTransaction (s : Session) (connection : Connection) :
    Option PyError × Session × Connection :=
  if s.transaction.isSome then
    (some (.transactionError "Explicit transaction already open"), s, connection)
  else
    let (tx, connection) := Transaction.make connection
    (none, ⟨some tx⟩, connection)

/-- The trust modes named by the constants `session.py` imports from
`neo4j.v1.constants`; `other` stands for any value distinct from all five
named constants (the `else: raise ValueError("Unknown trust mode")` arm). -/
inductive Trust where
  | TRUST_ON_FIRST_USE
  | TRUST_SIGNED_CERTIFICATES
  | TRUST_ALL_CERTIFICATES
  | TRUST_CUSTOM_CA_SIGNED_CERTIFICATES
  | TRUST_SYSTEM_CA_SIGNED_CERTIFICATES
  | other (n : Nat)
deriving DecidableEq, Repr

/-- Modelled from the spec: `TRUST_DEFAULT` comes from `neo4j/v1/constants.py`
which is not under `src/`; the `GraphDatabase.driver` docstring states the
trust default is `TRUST_ON_FIRST_USE`. -/
def TRUST_DEFAULT : Trust := Trust.TRUST_ON_FIRST_USE

/-- Modelled from the spec: `DEFAULT_PORT` comes from `neo4j/v1/constants.py`
which is not under `src/`; the spec calls it "the protocol's well-known port
(single constant)" and the test suite connects to port 7687. -/
def DEFAULT_PORT : Nat := 7687

/-- Modelled from the spec: `ENCRYPTION_DEFAULT` comes from
`neo4j/v1/constants.py` which is not under `src/`; the spec says the default
enables encryption iff TLS is available (`_encryption_default`, lines
604-610, additionally warns once when TLS is unavailable). -/
def encryptionDefault (sslAvailable : Bool) : Bool := sslAvailable

/-- The slice of an `ssl.SSLContext` the embedded code configures: whether
peer certificate verification is required (`verify_mode = CERT_REQUIRED`). -/
structure SSLCtx where
  verifyRequired : Bool
deriving DecidableEq, Repr

/-- `SecurityPlan` fields (lines 142-145). -/
structure SecurityPlan where
  encrypted : Bool
  sslContext : Option SSLCtx
  routing_compatible : Bool
deriving DecidableEq, Repr

/-- The driver configuration keys `SecurityPlan.build` reads. -/
structure DriverConfig where
  encrypted : Option Bool := Option.none
  trust : Option Trust := Option.none
deriving DecidableEq, Repr

/-- `SecurityPlan.build` (lines 110-140): resolve `encrypted` from the config
or the default, `trust` from the config or `TRUST_DEFAULT`; when encrypted,
require TLS availability and build an SSL context whose verification mode
depends on the trust mode, rejecting custom-CA (`NotImplementedError`) and
unknown modes (`ValueError`); finally
`routing_compatible = (trust != TRUST_ON_FIRST_USE)`.  The deprecation
warnings for on-first-use and signed-certificates are not errors and have no
further effect. -/
def SecurityPlan.build (sslAvailable : Bool) (config : DriverConfig) :
    Except PyError SecurityPlan :=
  let encrypted := config.encrypted.getD (encryptionDefault sslAvailable)
  let trust := config.trust.getD TRUST_DEFAULT
  if encrypted then
    if !sslAvailable then
      .error (.runtimeError
        "Bolt over TLS is only available in Python 2.7.9+ and Python 3.3+")
    else
      match trust with
      | .TRUST_ON_FIRST_USE =>
          .ok ⟨true, some ⟨false⟩, trust ≠ Trust.TRUST_ON_FIRST_USE⟩
      | .TRUST_SIGNED_CERTIFICATES =>
          .ok ⟨true, some ⟨true⟩, trust ≠ Trust.TRUST_ON_FIRST_USE⟩
      | .TRUST_ALL_CERTIFICATES =>
          .ok ⟨true, some ⟨false⟩, trust ≠ Trust.TRUST_ON_FIRST_USE⟩
      | .TRUST_CUSTOM_CA_SIGNED_CERTIFICATES =>
          .error (.notImplementedError "Custom CA support is not implemented")
      | .TRUST_SYSTEM_CA_SIGNED_CERTIFICATES =>
          .ok ⟨true, some ⟨true⟩, trust ≠ Trust.TRUST_ON_FIRST_USE⟩
      | .other _ =>
          .error (.valueError "Unknown trust mode")
  else
    .ok ⟨false, Option.none, trust ≠ Trust.TRUST_ON_FIRST_USE⟩

/-- The observable outcome of `GraphDatabase.driver`: which driver class was
constructed, with its `address` and `security_plan`. -/
inductive DriverInstance where
  | direct (address : String × Nat) (plan : SecurityPlan)
  | routing (address : String × Nat) (plan : SecurityPlan)
deriving DecidableEq, Repr

/-- `DirectDriver.__init__` (lines 185-189): store the address and the
security plan built for it (building may raise). -/
def DirectDriver.make (address : String × Nat) (sslAvailable : Bool)
    (config : DriverConfig) : Except PyError DriverInstance :=
  match SecurityPlan.build sslAvailable config with
  | .error e => .error e
  | .ok plan => .ok (.direct address plan)

/-- `RoutingDriver.__init__` (lines 202-215): build the security plan, then
`raise RuntimeError("TRUST_ON_FIRST_USE is not compatible with routing")` if
the plan is not routing compatible; otherwise initialise the router, reader
and writer sets (which does not affect the fields observed here). -/
def RoutingDriver.make (address : String × Nat) (sslAvailable : Bool)
    (config : DriverConfig) : Except PyError DriverInstance :=
  match SecurityPlan.build sslAvailable config with
  | .error e => .error e
  | .ok plan =>
    if !plan.routing_compatible then
      .error (.runtimeError "TRUST_ON_FIRST_USE is not compatible with routing")
    else
      .ok (.routing address plan)

/-- The result of `urlparse` that `GraphDatabase.driver` inspects: the scheme,
the hostname, and the optional port.  URI parsing itself is an external
utility (`from .compat import urlparse`), so it is passed in as a function. -/
structure ParsedUri where
  scheme : String
  hostname : String
  port : Option Nat
deriving DecidableEq, Repr

/-- `GraphDatabase.driver` (lines 67-105): parse the URI; scheme `bolt` gives
a `DirectDriver` at `(hostname, port or DEFAULT_PORT)`; scheme `bolt+routing`
gives a `RoutingDriver` at the same address; any other scheme raises
`ProtocolError("Only the 'bolt' URI scheme is supported [<uri>]")`. -/
def GraphDatabase.driver (urlparse : String → ParsedUri) (sslAvailable : Bool)
    (uri : String) (config : DriverConfig) : Except PyError DriverInstance :=
  let parsed := urlparse uri
  if parsed.scheme = "bolt" then
    DirectDriver.make (parsed.hostname, parsed.port.getD DEFAULT_PORT)
      sslAvailable config
  else if parsed.scheme = "bolt+routing" then
    RoutingDriver.make (parsed.hostname, parsed.port.getD DEFAULT_PORT)
      sslAvailable config
  else
    .error (.protocolError
      ("Only the 'bolt' URI scheme is supported [" ++ uri ++ "]"))

/-- `Record` (lines 478-553): an ordered collection of fields, stored as a
tuple of keys and a tuple of values (lists model Python tuples, preserving
order and length). -/
structure Record where
  keys : List String
  values : List PyVal
deriving DecidableEq, Repr

/-- `Record.index` (lines 505-511): `self._keys.index(key)` returns the
position of the first occurrence; the `ValueError` raised for a missing key is
caught and re-raised as `KeyError(key)`. -/
def Record.index (r : Record) (key : String) : Except PyError Nat :=
  match r.keys.findIdx? (· == key) with
  | some i => .ok i
  | Option.none => .error (.keyError key)

/-- Python tuple indexing `t[i]` with an `int` index: a negative index counts
from the end; any index outside `[-len, len)` raises `IndexError`. -/
def pyTupleGet (vs : List PyVal) (i : Int) : Except PyError PyVal :=
  let j : Int := if i < 0 then i + vs.length else i
  if j < 0 then .error .indexError
  else
    match vs[j.toNat]? with
    | some v => .ok v
    | Option.none => .error .indexError

/-- The shapes of lookup key `Record.__getitem__` distinguishes with
`isinstance`: `string`, `integer`, or anything else. -/
inductive RecordKey where
  | str (s : String)
  | int (i : Int)
  | other
deriving DecidableEq, Repr

/-- `Record.__getitem__` (lines 525-531): a string key looks up
`self._values[self.index(item)]`; an integer indexes `self._values` directly;
any other type raises `TypeError(item)`. -/
def Record.getitem (r : Record) (item : RecordKey) : Except PyError PyVal :=
  match item with
  | .str s =>
    match r.index s with
    | .error e => .error e
    | .ok i =>
      match r.values[i]? with
      | some v => .ok v
      | Option.none => .error .indexError
  | .int i => pyTupleGet r.values i
  | .other => .error .typeError

/-- `Record.__eq__` (lines 546-550): for two `Record`s, structural equality of
the key tuples and of the value tuples (the `AttributeError` fallback only
concerns non-`Record` arguments). -/
def Record.eq (r other : Record) : Bool :=
  decide (r.keys = other.keys) && decide (r.values = other.values)

/-- A deterministic stand-in for Python's `hash` on one value.  CPython's hash
is environment dependent; what the code relies on is only that it is a
function of the value's structure, which any fixed deterministic function
models. -/
def pyHashVal : PyVal → Nat
  | .bytes s => 2 + 5 * s.foldl (fun h c => h * 31 + c.toNat) 7
  | .str s => 3 + 5 * s.foldl (fun h c => h * 31 + c.toNat) 7
  | .int i => 4 + 5 * i.natAbs
  | .bool b => if b then 1 else 0
  | .none => 5

/-- A deterministic stand-in for Python's `hash` of a tuple: a fold over the
element hashes (shaped like CPython's tuple hash). -/
def pyHashTuple (hs : List Nat) : Nat :=
  hs.foldl (fun h x => (h * 1000003) ^^^ x) 3430008

/-- `Record.__hash__` (lines 543-544): `hash(self._keys) ^ hash(self._values)`. -/
def Record.pyHash (r : Record) : Nat :=
  pyHashTuple (r.keys.map fun s => pyHashVal (.str s))
    ^^^ pyHashTuple (r.values.map pyHashVal)

/-- A metadata map, as delivered with SUCCESS and FAILURE messages. -/
abbrev Metadata := List (String × PyVal)

/-- The inbound messages a `PULL_ALL` response can receive: RECORD carrying a
tuple of raw values, the SUCCESS footer carrying summary metadata, or
FAILURE. -/
inductive BoltMessage where
  | record (values : List PyVal)
  | success (metadata : Metadata)
  | failure (metadata : Metadata)
deriving DecidableEq, Repr

/-- The mutable state of a `StatementResult` that iteration observes (lines
243-288): the FIFO `_buffer` of raw record value tuples, the `_summary`
(modelled as the footer metadata, since `ResultSummary` itself lives in
`neo4j/v1/summary.py` outside `src/`; the claims only need that it is
populated), and the `_consumed` flag. -/
structure ResultState where
  buffer : List (List PyVal)
  summary : Option Metadata
  consumed : Bool
deriving DecidableEq, Repr

/-- The hooks installed on the `PULL_ALL` response (lines 269-288), applied to
one inbound message by `connection.fetch()`: `on_record` appends the raw
values to `_buffer`; `on_success` (the footer) builds the summary and sets
`_consumed`; `on_failure` sets `_consumed` and raises `CypherError`. -/
def dispatch (s : ResultState) (m : BoltMessage) : ResultState × Option PyError :=
  match m with
  | .record vs => ({ s with buffer := s.buffer ++ [vs] }, Option.none)
  | .success meta => ({ s with summary := some meta, consumed := true }, Option.none)
  | .failure meta => ({ s with consumed := true }, some (.cypherError meta))

/-- `StatementResult.__iter__` (lines 290-298), with the connection's inbound
message stream made explicit as `incoming` (one message dispatched per
`fetch`, per the Connection contract): first drain and yield the buffered
records; then, while not consumed, fetch one message and drain again.  Each
yielded item is `Record(self.keys(), tuple(map(hydrated, values)))`, where
`keys` is the header field list already received on the `RUN` response and
`hydrated` is the external value-hydration function.  An empty `incoming`
while unconsumed models a fetch that blocks forever: nothing further is
yielded.  A `CypherError` raised by `on_failure` aborts the iteration and is
returned alongside what was yielded. -/
def iterRecords (keys : List String) (hydrated : PyVal → PyVal)
    (incoming : List BoltMessage) (s : ResultState) :
    List Record × ResultState × Option PyError :=
  let yielded := s.buffer.map fun vs => Record.mk keys (vs.map hydrated)
  let s1 : ResultState := { s with buffer := [] }
  if s1.consumed then (yielded, s1, Option.none)
  else
    match incoming with
    | [] => (yielded, s1, Option.none)
    | m :: rest =>
      match dispatch s1 m with
      | (s2, some e) => (yielded, s2, some e)
      | (s2, Option.none) =>
        let (more, s3, e) := iterRecords keys hydrated rest s2
        (yielded ++ more, s3, e)

/-- A Python dict, modelled as an insertion-ordered association list. -/
abbrev PyDict := List (PyVal × PyVal)

/-- `d[k] = v` on a dict: overwrite the entry of an existing key in place,
else append a new entry. -/
def dictSet (d : PyDict) (k v : PyVal) : PyDict :=
  if d.any (fun kv => kv.1 == k) then
    d.map fun kv => if kv.1 == k then (k, v) else kv
  else d ++ [(k, v)]

/-- A heap of dict objects; a dict-valued Python variable is a reference
(index) into it, so that aliasing and in-place mutation are observable. -/
abbrev Heap := List PyDict

/-- In-place `h[ref][k] = v`: mutate the dict object at `ref`. -/
def heapDictSet (h : Heap) (ref : Nat) (k v : PyVal) : Heap :=
  h.set ref (dictSet ((h[ref]?).getD []) k v)

/-- `value.decode("UTF-8")` applied when the value is `bytes`, identity
otherwise (a `bytes` value here carries the string its payload decodes to). -/
def pyDecodeBytes : PyVal → PyVal
  | .bytes s => .str s
  | v => v

/-- The statement normalisation in `run` (lines 574-576): decode a `bytes`
statement to Unicode. -/
def runNormalizeStatement (statement : PyVal) : PyVal :=
  pyDecodeBytes statement

/-- The parameter normalisation in `run` (lines 578-586), on the heap model:
`params = {}` allocates a fresh dict; then for each key/value of
`(parameters or {}).items()`, decode `bytes` keys and values and store into
`params` — every write targets the fresh dict, never the caller's.  Returns
the heap after the loop and the reference to `params` (which the code then
rebinds the local name `parameters` to). -/
def runNormalizeParams (heap : Heap) (parameters : Option Nat) : Heap × Nat :=
  let paramsRef := heap.length
  let heap := heap ++ [[]]
  let items : PyDict :=
    match parameters with
    | Option.none => []
    | some r => (heap[r]?).getD []
  let heap := items.foldl
    (fun h kv => heapDictSet h paramsRef (pyDecodeBytes kv.1) (pyDecodeBytes kv.2))
    heap
  (heap, paramsRef)

/-! ## Theorems settling the claims -/

/-- C1 (counterexample): the claim says a second `close()` on an
already-closed Transaction raises no error; on the code, `Transaction.close`
on a transaction with `closed = true` raises `AssertionError` (from
`assert not self.closed`). -/
theorem transaction_double_close_raises :
    (Transaction.close ⟨false, true⟩ ⟨[]⟩).1 = some PyError.assertionError :=
  rfl

/-- C1 (amended): for every already-closed Transaction, a second call to
`close()` raises `AssertionError`; it sends no further COMMIT or ROLLBACK
frame and leaves the transaction state and the connection unchanged, but it is
not an error-free no-op. -/
theorem transaction_close_after_close (tx : Transaction) (c : Connection)
    (h : tx.closed = true) :
    Transaction.close tx c = (some PyError.assertionError, tx, c) := by
  simp [Transaction.close, h]

/-- C1 (witness): the amended theorem evaluated on a concrete closed
transaction. -/
theorem transaction_close_after_close_witness :
    (Transaction.mk true true).closed = true ∧
      Transaction.close ⟨true, true⟩ ⟨[]⟩
        = (some PyError.assertionError, ⟨true, true⟩, ⟨[]⟩) :=
  ⟨rfl, transaction_close_after_close ⟨true, true⟩ ⟨[]⟩ rfl⟩

/-- C2 (counterexample): the claim says `run` on a closed Transaction fails
with a `TransactionError`; on the code it raises `AssertionError` (from
`assert not self.closed`), which is not a `TransactionError`, and forwards
nothing to the connection. -/
theorem transaction_run_after_close_not_tx_error :
    Transaction.run ⟨false, true⟩ ⟨[]⟩ "RETURN 1" []
        = (some PyError.assertionError, ⟨[]⟩) ∧
      PyError.isTransactionError PyError.assertionError = false :=
  ⟨rfl, rfl⟩

/-- C2 (amended): for every closed Transaction, `run(statement, parameters)`
fails with `AssertionError` — not a `TransactionError` — and forwards nothing
to the underlying Connection (the connection is returned unchanged). -/
theorem transaction_run_after_close (tx : Transaction) (c : Connection)
    (st : String) (p : List (String × PyVal)) (h : tx.closed = true) :
    Transaction.run tx c st p = (some PyError.assertionError, c) ∧
      PyError.isTransactionError PyError.assertionError = false := by
  refine ⟨?_, rfl⟩
  simp [Transaction.run, h]

/-- C2 (witness): the amended theorem evaluated on a concrete closed
transaction. -/
theorem transaction_run_after_close_witness :
    (Transaction.mk false true).closed = true ∧
      (Transaction.run ⟨false, true⟩ ⟨[Frame.RUN "BEGIN" [], Frame.PULL_ALL]⟩
          "CREATE (a)" []
        = (some PyError.assertionError, ⟨[Frame.RUN "BEGIN" [], Frame.PULL_ALL]⟩) ∧
      PyError.isTransactionError PyError.assertionError = false) :=
  ⟨rfl, transaction_run_after_close ⟨false, true⟩
    ⟨[Frame.RUN "BEGIN" [], Frame.PULL_ALL]⟩ "CREATE (a)" [] rfl⟩

/-- C3: for every Session whose `transaction` field holds an open Transaction,
`session.run(statement, parameters)` raises
`TransactionError("Explicit transaction already open")` and appends no frame
to the Connection (the connection is returned unchanged). -/
theorem session_run_with_open_transaction (s : Session) (c : Connection)
    (st : String) (p : List (String × PyVal)) (tx : Transaction)
    (h1 : s.transaction = some tx) (_h2 : tx.closed = false) :
    Session.run s c st p
      = (some (PyError.transactionError "Explicit transaction already open"), c) := by
  simp [Session.run, h1]

/-- C3 (witness): the theorem evaluated on a concrete session with an open
transaction. -/
theorem session_run_with_open_transaction_witness :
    (Session.mk (some ⟨false, false⟩)).transaction = some ⟨false, false⟩ ∧
      (Transaction.mk false false).closed = false ∧
      Session.run ⟨some ⟨false, false⟩⟩ ⟨[Frame.RUN "BEGIN" [], Frame.PULL_ALL]⟩
          "RETURN 1" []
        = (some (PyError.transactionError "Explicit transaction already open"),
            ⟨[Frame.RUN "BEGIN" [], Frame.PULL_ALL]⟩) :=
  ⟨rfl, rfl, session_run_with_open_transaction ⟨some ⟨false, false⟩⟩
    ⟨[Frame.RUN "BEGIN" [], Frame.PULL_ALL]⟩ "RETURN 1" [] ⟨false, false⟩ rfl rfl⟩

/-- C4: for every open Transaction leaving a scoped block: an unhandled error
forces `success = false` and a ROLLBACK statement (not COMMIT) is run on the
connection; a normal exit with `success` still `false` (its default — see the
`Transaction.make` conjunct) likewise runs ROLLBACK; COMMIT is run exactly
when the block exits normally with `success = true`; and in the rollback cases
no COMMIT frame appears among the frames the exit appended. -/
theorem transaction_exit_scoping (tx : Transaction) (c : Connection)
    (exc : Option String) (h : tx.closed = false) :
    (exc.isSome = true →
        Transaction.exit tx c exc
          = (Option.none, ⟨false, true⟩, runFrames c "ROLLBACK" []))
  ∧ (exc = Option.none → tx.success = false →
        Transaction.exit tx c exc
          = (Option.none, ⟨false, true⟩, runFrames c "ROLLBACK" []))
  ∧ (exc = Option.none → tx.success = true →
        Transaction.exit tx c exc
          = (Option.none, ⟨true, true⟩, runFrames c "COMMIT" []))
  ∧ (Transaction.make c).1.success = false
  ∧ (exc.isSome = true ∨ tx.success = false → ∀ ps,
        Frame.RUN "COMMIT" ps
          ∉ (Transaction.exit tx c exc).2.2.outgoing.drop c.outgoing.length) := by
  obtain ⟨su, cl⟩ := tx
  cases h
  have hroll : exc.isSome = true ∨ su = false →
      (Transaction.exit ⟨su, false⟩ c exc).2.2 = runFrames c "ROLLBACK" [] := by
    rintro (hexc | rfl)
    · obtain ⟨e, rfl⟩ := Option.isSome_iff_exists.mp hexc
      simp [Transaction.exit, Transaction.close]
    · cases exc <;> simp [Transaction.exit, Transaction.close]
  refine ⟨?_, ?_, ?_, rfl, ?_⟩
  · intro hexc
    obtain ⟨e, rfl⟩ := Option.isSome_iff_exists.mp hexc
    simp [Transaction.exit, Transaction.close]
  · rintro rfl rfl
    simp [Transaction.exit, Transaction.close]
  · rintro rfl rfl
    simp [Transaction.exit, Transaction.close]
  · intro hor ps
    rw [hroll hor]
    simp only [runFrames, List.drop_left]
    simp

/-- C4 (witness): the theorem evaluated on concrete open transactions — an
error exit rolls back, a normal exit with default `success` rolls back, a
normal exit after `success = true` commits, and the error exit appends no
COMMIT frame. -/
theorem transaction_exit_scoping_witness :
    (Transaction.mk false false).closed = false ∧
      Transaction.exit ⟨false, false⟩ ⟨[]⟩ (some "boom")
        = (Option.none, ⟨false, true⟩, runFrames ⟨[]⟩ "ROLLBACK" []) ∧
      Transaction.exit ⟨false, false⟩ ⟨[]⟩ Option.none
        = (Option.none, ⟨false, true⟩, runFrames ⟨[]⟩ "ROLLBACK" []) ∧
      Transaction.exit ⟨true, false⟩ ⟨[]⟩ Option.none
        = (Option.none, ⟨true, true⟩, runFrames ⟨[]⟩ "COMMIT" []) ∧
      Frame.RUN "COMMIT" []
        ∉ (Transaction.exit ⟨false, false⟩ ⟨[]⟩ (some "boom")).2.2.outgoing.drop 0 :=
  ⟨rfl,
    (transaction_exit_scoping ⟨false, false⟩ ⟨[]⟩ (some "boom") rfl).1 rfl,
    (transaction_exit_scoping ⟨false, false⟩ ⟨[]⟩ Option.none rfl).2.1 rfl rfl,
    (transaction_exit_scoping ⟨true, false⟩ ⟨[]⟩ Option.none rfl).2.2.1 rfl rfl,
    (transaction_exit_scoping ⟨false, false⟩ ⟨[]⟩ (some "boom") rfl).2.2.2.2
      (Or.inl rfl) []⟩

/-- Helper for C5: iterating from an unconsumed state with `pre` already
buffered, over a stream of record messages followed by the SUCCESS footer,
yields the buffered tuples then the streamed tuples in arrival order, ends
with an empty buffer, a populated summary and `consumed = true`, and raises
nothing. -/
theorem iterRecords_stream (keys : List String) (hydrated : PyVal → PyVal) :
    ∀ (recs pre : List (List PyVal)) (meta : Metadata),
      iterRecords keys hydrated
          (recs.map BoltMessage.record ++ [BoltMessage.success meta])
          ⟨pre, Option.none, false⟩
        = ((pre ++ recs).map fun vs => Record.mk keys (vs.map hydrated),
            ⟨[], some meta, true⟩, Option.none) := by
  intro recs
  induction recs with
  | nil =>
    intro pre meta
    simp [iterRecords, dispatch]
  | cons v recs ih =>
    intro pre meta
    rw [show ((v :: recs).map BoltMessage.record ++ [BoltMessage.success meta])
        = BoltMessage.record v
            :: (recs.map BoltMessage.record ++ [BoltMessage.success meta]) by simp]
    rw [iterRecords]
    simp only [dispatch, List.nil_append]
    rw [ih [v] meta]
    simp

/-- C5: for every sequence of `on_record` events delivered to the `PULL_ALL`
response followed by the footer's `on_success`, iterating the
`StatementResult` yields exactly one Record per `on_record` event, in arrival
(FIFO) order — including records already sitting in the buffer, and records
still buffered once `consumed` is true — and when iteration ends the summary
is populated. -/
theorem statement_result_iteration (keys : List String)
    (hydrated : PyVal → PyVal) (pre recs : List (List PyVal)) (meta : Metadata) :
    (iterRecords keys hydrated
        (recs.map BoltMessage.record ++ [BoltMessage.success meta])
        ⟨pre, Option.none, false⟩
      = ((pre ++ recs).map fun vs => Record.mk keys (vs.map hydrated),
          ⟨[], some meta, true⟩, Option.none))
  ∧ (iterRecords keys hydrated [] ⟨pre, some meta, true⟩
      = (pre.map fun vs => Record.mk keys (vs.map hydrated),
          ⟨[], some meta, true⟩, Option.none)) := by
  refine ⟨iterRecords_stream keys hydrated recs pre meta, ?_⟩
  simp [iterRecords]

/-- Helper for C6: on every successful build, `routing_compatible` is exactly
`trust != TRUST_ON_FIRST_USE` for the resolved trust mode. -/
theorem build_routing_compatible (ssl : Bool) (config : DriverConfig)
    (plan : SecurityPlan) (h : SecurityPlan.build ssl config = .ok plan) :
    plan.routing_compatible
      = decide (config.trust.getD TRUST_DEFAULT ≠ Trust.TRUST_ON_FIRST_USE) := by
  simp only [SecurityPlan.build] at h
  split at h
  · split at h
    · simp at h
    · split at h <;>
        first
          | (have h2 := Except.ok.inj h
             subst h2
             simp_all)
          | simp at h
  · have h2 := Except.ok.inj h
    subst h2
    simp

/-- C6 (counterexample): the claim says a `bolt+routing` URI with
`trust = TRUST_ON_FIRST_USE` raises a `ConfigurationError`; on the code,
`RoutingDriver.__init__` raises `RuntimeError` (and the exceptions module
defines no `ConfigurationError` at all). -/
theorem routing_on_first_use_not_configuration_error :
    GraphDatabase.driver (fun _ => ⟨"bolt+routing", "h", some 9001⟩) true
        "bolt+routing://h:9001" ⟨Option.none, some Trust.TRUST_ON_FIRST_USE⟩
      = .error (.runtimeError "TRUST_ON_FIRST_USE is not compatible with routing")
  ∧ PyError.isConfigurationError
      (.runtimeError "TRUST_ON_FIRST_USE is not compatible with routing") = false :=
  ⟨rfl, rfl⟩

/-- C6 (amended): on every successful `SecurityPlan.build`,
`routing_compatible` is false exactly when the resolved trust mode is
`TRUST_ON_FIRST_USE`; and constructing a `RoutingDriver` with that trust mode
raises `RuntimeError` — not a `ConfigurationError`, which the code does not
define — instead of producing a driver. -/
theorem security_plan_routing_compatibility (ssl : Bool) (config : DriverConfig)
    (plan : SecurityPlan) (h : SecurityPlan.build ssl config = .ok plan) :
    (plan.routing_compatible = false ↔
        config.trust.getD TRUST_DEFAULT = Trust.TRUST_ON_FIRST_USE)
  ∧ (∀ address : String × Nat,
        config.trust.getD TRUST_DEFAULT = Trust.TRUST_ON_FIRST_USE →
        RoutingDriver.make address ssl config
          = .error (.runtimeError "TRUST_ON_FIRST_USE is not compatible with routing")) := by
  have hrc := build_routing_compatible ssl config plan h
  constructor
  · rw [hrc]
    simp
  · intro address htr
    simp only [RoutingDriver.make, h]
    rw [hrc, htr]
    simp

/-- C6 (witness): the amended theorem evaluated on a concrete unencrypted
configuration with `trust = TRUST_ON_FIRST_USE`. -/
theorem security_plan_routing_compatibility_witness :
    SecurityPlan.build false ⟨some false, some Trust.TRUST_ON_FIRST_USE⟩
        = .ok ⟨false, Option.none, false⟩ ∧
      ((SecurityPlan.mk false Option.none false).routing_compatible = false ↔
        (DriverConfig.mk (some false) (some Trust.TRUST_ON_FIRST_USE)).trust.getD
            TRUST_DEFAULT = Trust.TRUST_ON_FIRST_USE) ∧
      RoutingDriver.make ("h", 9001) false ⟨some false, some Trust.TRUST_ON_FIRST_USE⟩
        = .error (.runtimeError "TRUST_ON_FIRST_USE is not compatible with routing") :=
  ⟨rfl,
    (security_plan_routing_compatibility false
      ⟨some false, some Trust.TRUST_ON_FIRST_USE⟩ ⟨false, Option.none, false⟩ rfl).1,
    (security_plan_routing_compatibility false
      ⟨some false, some Trust.TRUST_ON_FIRST_USE⟩ ⟨false, Option.none, false⟩ rfl).2
      ("h", 9001) rfl⟩

/-- C7: `GraphDatabase.driver` dispatches on the URI scheme: `bolt` gives a
`DirectDriver` at `(hostname, given port or DEFAULT_PORT)` (when the security
plan builds); `bolt+routing` gives a `RoutingDriver` at the same address (when
the plan builds routing-compatible); any other scheme raises a
`ProtocolError` whose message contains the full URI. -/
theorem graph_database_driver_dispatch (urlparse : String → ParsedUri)
    (ssl : Bool) (uri : String) (config : DriverConfig) :
    ((urlparse uri).scheme = "bolt" → ∀ plan,
        SecurityPlan.build ssl config = .ok plan →
        GraphDatabase.driver urlparse ssl uri config
          = .ok (.direct ((urlparse uri).hostname,
              (urlparse uri).port.getD DEFAULT_PORT) plan))
  ∧ ((urlparse uri).scheme = "bolt+routing" → ∀ plan,
        SecurityPlan.build ssl config = .ok plan → plan.routing_compatible = true →
        GraphDatabase.driver urlparse ssl uri config
          = .ok (.routing ((urlparse uri).hostname,
              (urlparse uri).port.getD DEFAULT_PORT) plan))
  ∧ ((urlparse uri).scheme ≠ "bolt" → (urlparse uri).scheme ≠ "bolt+routing" →
        GraphDatabase.driver urlparse ssl uri config
          = .error (.protocolError
              ("Only the 'bolt' URI scheme is supported [" ++ uri ++ "]")) ∧
        ∃ p q, "Only the 'bolt' URI scheme is supported [" ++ uri ++ "]"
          = p ++ uri ++ q) := by
  refine ⟨?_, ?_, ?_⟩
  · intro hs plan hplan
    simp [GraphDatabase.driver, hs, DirectDriver.make, hplan]
  · intro hs plan hplan hrc
    have hnb : (urlparse uri).scheme ≠ "bolt" := by
      rw [hs]
      decide
    simp [GraphDatabase.driver, hs, hnb, RoutingDriver.make, hplan, hrc]
  · intro h1 h2
    refine ⟨?_, "Only the 'bolt' URI scheme is supported [", "]", rfl⟩
    simp [GraphDatabase.driver, h1, h2]

/-- C7 (witness): the theorem evaluated on concrete URIs of each scheme. -/
theorem graph_database_driver_dispatch_witness :
    GraphDatabase.driver (fun _ => ⟨"bolt", "localhost", Option.none⟩) false
        "bolt://localhost" ⟨Option.none, Option.none⟩
      = .ok (.direct ("localhost", 7687) ⟨false, Option.none, false⟩) ∧
      GraphDatabase.driver (fun _ => ⟨"bolt+routing", "h", some 9001⟩) false
        "bolt+routing://h:9001"
        ⟨Option.none, some Trust.TRUST_SYSTEM_CA_SIGNED_CERTIFICATES⟩
      = .ok (.routing ("h", 9001) ⟨false, Option.none, true⟩) ∧
      GraphDatabase.driver (fun _ => ⟨"http", "x", Option.none⟩) false
        "http://x" ⟨Option.none, Option.none⟩
      = .error (.protocolError "Only the 'bolt' URI scheme is supported [http://x]") := by
  refine ⟨?_, ?_, ?_⟩
  · exact (graph_database_driver_dispatch (fun _ => ⟨"bolt", "localhost", Option.none⟩)
      false "bolt://localhost" ⟨Option.none, Option.none⟩).1 rfl
      ⟨false, Option.none, false⟩ rfl
  · exact (graph_database_driver_dispatch (fun _ => ⟨"bolt+routing", "h", some 9001⟩)
      false "bolt+routing://h:9001"
      ⟨Option.none, some Trust.TRUST_SYSTEM_CA_SIGNED_CERTIFICATES⟩).2.1 rfl
      ⟨false, Option.none, true⟩ rfl rfl
  · exact ((graph_database_driver_dispatch (fun _ => ⟨"http", "x", Option.none⟩)
      false "http://x" ⟨Option.none, Option.none⟩).2.2 (by decide) (by decide)).1

/-- C8: `Record` lookup semantics — `index(k)` raises `KeyError(k)` when `k`
is not among the keys (and `r[k]` for such a string key propagates it); for a
string key present in the record, `r[k]` returns the value at position
`index(k)`; for an integer key, `r[k]` indexes the values tuple directly by
position; for any other key type, `r[k]` raises `TypeError`. -/
theorem record_getitem_lookup (r : Record) :
    (∀ k : String, k ∉ r.keys →
        r.index k = .error (.keyError k) ∧
        r.getitem (.str k) = .error (.keyError k))
  ∧ (∀ (k : String) (i : Nat) (v : PyVal),
        r.index k = .ok i → r.values[i]? = some v →
        r.getitem (.str k) = .ok v)
  ∧ (∀ i : Int, r.getitem (.int i) = pyTupleGet r.values i)
  ∧ r.getitem .other = .error .typeError := by
  refine ⟨?_, ?_, fun i => rfl, rfl⟩
  · intro k hk
    have hnone : r.keys.findIdx? (· == k) = Option.none := by
      rw [List.findIdx?_eq_none_iff]
      intro x hx
      simp only [beq_eq_false_iff_ne, ne_eq]
      rintro rfl
      exact hk hx
    constructor
    · simp [Record.index, hnone]
    · simp [Record.getitem, Record.index, hnone]
  · intro k i v hidx hval
    simp [Record.getitem, hidx, hval]

/-- C8 (witness): the theorem evaluated on a concrete two-field record, with a
missing string key, a present string key, an integer key and an ill-typed
key. -/
theorem record_getitem_lookup_witness :
    ("z" ∉ ["a", "b"] ∧
      Record.index ⟨["a", "b"], [.int 10, .int 20]⟩ "z" = .error (.keyError "z") ∧
      Record.getitem ⟨["a", "b"], [.int 10, .int 20]⟩ (.str "z")
        = .error (.keyError "z")) ∧
      (Record.index ⟨["a", "b"], [.int 10, .int 20]⟩ "b" = .ok 1 ∧
        Record.getitem ⟨["a", "b"], [.int 10, .int 20]⟩ (.str "b") = .ok (.int 20)) ∧
      Record.getitem ⟨["a", "b"], [.int 10, .int 20]⟩ (.int 1)
        = pyTupleGet [.int 10, .int 20] 1 ∧
      Record.getitem ⟨["a", "b"], [.int 10, .int 20]⟩ .other = .error .typeError := by
  have h := record_getitem_lookup ⟨["a", "b"], [.int 10, .int 20]⟩
  have hz := h.1 "z" (by decide)
  exact ⟨⟨by decide, hz.1, hz.2⟩, ⟨rfl, h.2.1 "b" 1 (.int 20) rfl rfl⟩,
    h.2.2.1 1, h.2.2.2⟩

/-- C9: two `Record`s with equal key tuples and equal value tuples compare
equal under `__eq__` and have equal `__hash__` values — both are structural
over the two tuples. -/
theorem record_structural_eq_hash (r1 r2 : Record)
    (hk : r1.keys = r2.keys) (hv : r1.values = r2.values) :
    Record.eq r1 r2 = true ∧ Record.pyHash r1 = Record.pyHash r2 := by
  constructor
  · simp [Record.eq, hk, hv]
  · simp [Record.pyHash, hk, hv]

/-- C9 (witness): the theorem evaluated on two concrete records with equal
keys and values. -/
theorem record_structural_eq_hash_witness :
    (Record.mk ["n"] [.int 1]).keys = (Record.mk ["n"] [.int 1]).keys ∧
      (Record.mk ["n"] [.int 1]).values = (Record.mk ["n"] [.int 1]).values ∧
      (Record.eq ⟨["n"], [.int 1]⟩ ⟨["n"], [.int 1]⟩ = true ∧
        Record.pyHash ⟨["n"], [.int 1]⟩ = Record.pyHash ⟨["n"], [.int 1]⟩) :=
  ⟨rfl, rfl, record_structural_eq_hash ⟨["n"], [.int 1]⟩ ⟨["n"], [.int 1]⟩ rfl rfl⟩

/-- Helper for C10: the normalisation loop only ever writes through the
`params` reference, so every other heap cell is untouched by the fold. -/
theorem foldl_heapDictSet_preserve (ref r : Nat) (hne : r ≠ ref) :
    ∀ (items : PyDict) (h : Heap),
      (items.foldl (fun hh kv =>
          heapDictSet hh ref (pyDecodeBytes kv.1) (pyDecodeBytes kv.2)) h)[r]?
        = h[r]? := by
  intro items
  induction items with
  | nil =>
    intro h
    rfl
  | cons kv items ih =>
    intro h
    rw [List.foldl_cons, ih]
    simp [heapDictSet, List.getElem?_set_ne (Ne.symm hne)]

/-- C10: the `run` helper's parameter normalisation does not mutate the
caller's dictionary — `params = {}` builds a fresh dict and all writes target
it — so after the call the heap cell of the caller's dictionary holds exactly
its original entries. -/
theorem run_params_no_caller_mutation (heap : Heap) (parameters : Option Nat)
    (r : Nat) (h : r < heap.length) :
    ((runNormalizeParams heap parameters).1)[r]? = heap[r]? := by
  have hne : r ≠ heap.length := Nat.ne_of_lt h
  simp only [runNormalizeParams]
  rw [foldl_heapDictSet_preserve heap.length r hne]
  exact List.getElem?_append_left h

/-- C10 (witness): the theorem evaluated on a concrete heap holding one
caller dictionary with a `bytes` key and a `bytes` value. -/
theorem run_params_no_caller_mutation_witness :
    0 < ([[(PyVal.bytes "a", PyVal.bytes "x"), (PyVal.str "b", PyVal.int 2)]]
        : Heap).length ∧
      ((runNormalizeParams
          [[(PyVal.bytes "a", PyVal.bytes "x"), (PyVal.str "b", PyVal.int 2)]]
          (some 0)).1)[0]?
        = ([[(PyVal.bytes "a", PyVal.bytes "x"), (PyVal.str "b", PyVal.int 2)]]
            : Heap)[0]? :=
  ⟨by decide,
    run_params_no_caller_mutation
      [[(PyVal.bytes "a", PyVal.bytes "x"), (PyVal.str "b", PyVal.int 2)]]
      (some 0) 0 (by decide)⟩

end Neo4j
